import Mathlib

/-!
Shallow embedding of the fitness-studio booking backend.

The embedding follows the Python source of the repository:

* `app/models/entities.py` — `FitnessClass` and `Booking` dataclasses with
  their `__post_init__` validation and the slot primitives
  `book_slot` / `cancel_slot`.
* `app/repositories/class_repository.py` and
  `app/repositories/booking_repository.py` — collection access, modelled as
  pure functions over an explicit `DbState` holding the two MongoDB
  collections as lists of documents.  BSON values stored in the booking
  ledger's `class_id` field are typed (`ObjectId` vs plain string), because
  MongoDB equality never identifies an `ObjectId` with its hex string; the
  repository stores the field as a plain string while the duplicate check
  queries it as an `ObjectId`, and the embedding keeps that distinction.
* `app/models/database.py` (`init_db`, run at application startup) creates a
  unique index on `(class_id, client_email)` of the bookings collection; the
  embedded `insert_one` therefore fails with a duplicate-key error exactly
  when another document carries the same typed `(class_id, client_email)`
  pair, mirroring `pymongo.errors.DuplicateKeyError`.
* `app/services/booking_service.py` — the booking workflow.

Python exceptions are modelled with an explicit error type; every operation
returns its result together with the (possibly unchanged) data-base state,
so that the absence of side effects on a failing path is a provable
statement rather than an artefact of the encoding.

Machine integers do not overflow in the modelled code paths (Python ints are
unbounded), so slot counts are embedded as `Int` exactly as the source
manipulates them.
-/

namespace FitnessStudio

/-- Python `str.lower()` on one character (ASCII case folding). -/
def py_char_lower (c : Char) : Char :=
  if 65 ≤ c.toNat ∧ c.toNat ≤ 90 then Char.ofNat (c.toNat + 32) else c

/-- Python `str.lower()` (ASCII case folding, as used for e-mail values). -/
def py_lower (s : String) : String := String.mk (s.toList.map py_char_lower)

/-- Python `str.strip()`: drop whitespace from both ends. -/
def py_strip (s : String) : String :=
  String.mk ((s.toList.dropWhile Char.isWhitespace).reverse.dropWhile
    Char.isWhitespace).reverse

/-- `bson.ObjectId.is_valid` on strings: a 24 character hex string. -/
def isValidObjectId (s : String) : Bool :=
  s.length == 24 && s.toList.all (fun c =>
    c.isDigit || (97 ≤ c.toNat && c.toNat ≤ 102) || (65 ≤ c.toNat && c.toNat ≤ 70))

/-- A BSON value as stored in the `class_id` field of a booking document:
either a real `ObjectId` or a plain string.  MongoDB equality distinguishes
the two types even when the hex text agrees. -/
inductive BVal where
  | oid (s : String)
  | str (s : String)
deriving DecidableEq

/-- `str(value)` of a stored `class_id` field (`str` of an `ObjectId` is its
hex string). -/
def BVal.toText : BVal → String
  | .oid s => s
  | .str s => s

/-- The exceptions of `app/utils/exceptions.py` together with the raw Python
errors that can escape the repository layer (`ValueError` from entity
validation, `bson.errors.InvalidId`). -/
inductive Err where
  | validationError (msg : String)
  | classNotFoundError (class_id : String)
  | duplicateBookingError (class_id client_email : String)
  | bookingNotFoundError (booking_id : String)
  | databaseError (msg : String)
  | valueError (msg : String)
  | invalidIdError
deriving DecidableEq

deriving instance DecidableEq for Except

/-- The `FitnessClass` dataclass of `app/models/entities.py`.  Date-times are
abstracted to natural-number timestamps; the core logic never inspects
them. -/
structure FitnessClass where
  id : Option String
  name : String
  instructor : String
  datetime_ist : Nat
  duration_minutes : Int
  total_slots : Int
  available_slots : Int
  description : Option String
  created_at : Option Nat
  updated_at : Option Nat
deriving DecidableEq

/-- `FitnessClass.__post_init__`: dataclass validation run at construction;
raises `ValueError` (modelled as `Except.error`) on the first violated
condition, otherwise the instance is exactly the given one. -/
def FitnessClass.post_init (c : FitnessClass) : Except Err FitnessClass :=
  if c.total_slots < 1 then
    .error (.valueError "Total slots must be at least 1")
  else if c.available_slots < 0 then
    .error (.valueError "Available slots cannot be negative")
  else if c.available_slots > c.total_slots then
    .error (.valueError "Available slots cannot exceed total slots")
  else if c.duration_minutes < 15 then
    .error (.valueError "Class duration must be at least 15 minutes")
  else
    .ok c

/-- `FitnessClass.can_book`. -/
def FitnessClass.can_book (c : FitnessClass) (slots_needed : Int) : Bool :=
  c.available_slots ≥ slots_needed

/-- `FitnessClass.book_slot`: returns the Python return value together with
the (possibly mutated) instance. -/
def FitnessClass.book_slot (c : FitnessClass) (slots : Int) :
    Bool × FitnessClass :=
  if ¬ c.can_book slots then (false, c)
  else (true, { c with available_slots := c.available_slots - slots })

/-- `FitnessClass.cancel_slot`. -/
def FitnessClass.cancel_slot (c : FitnessClass) (slots : Int) :
    Bool × FitnessClass :=
  if c.available_slots + slots > c.total_slots then (false, c)
  else (true, { c with available_slots := c.available_slots + slots })

/-- One call to a slot primitive with its requested slot count. -/
inductive SlotOp where
  | book (slots : Int)
  | cancel (slots : Int)
deriving DecidableEq

/-- The slot count requested by a call. -/
def SlotOp.slots : SlotOp → Int
  | .book n => n
  | .cancel n => n

/-- Execute one slot call, keeping the mutated instance. -/
def applySlotOp (c : FitnessClass) : SlotOp → Bool × FitnessClass
  | .book n => c.book_slot n
  | .cancel n => c.cancel_slot n

/-- Execute a finite sequence of slot calls, each succeeding or failing. -/
def applySlotOps (c : FitnessClass) : List SlotOp → FitnessClass
  | [] => c
  | op :: ops => applySlotOps (applySlotOp c op).2 ops

/-- The `Booking` dataclass of `app/models/entities.py`. -/
structure Booking where
  id : Option String
  class_id : String
  client_name : String
  client_email : String
  booking_time : Option Nat
  class_name : Option String
  class_datetime_ist : Option Nat
  instructor : Option String
  created_at : Option Nat
  status : String
deriving DecidableEq

/-- `Booking.__post_init__`: status must be one of the three legal values and
name and e-mail must be non-blank; raises `ValueError` otherwise. -/
def Booking.post_init (b : Booking) : Except Err Booking :=
  if ¬ (b.status = "confirmed" ∨ b.status = "cancelled" ∨ b.status = "pending") then
    .error (.valueError "Status must be one of: confirmed, cancelled, pending")
  else if b.client_name = "" ∨ py_strip b.client_name = "" then
    .error (.valueError "Client name cannot be empty")
  else if b.client_email = "" ∨ py_strip b.client_email = "" then
    .error (.valueError "Client email cannot be empty")
  else
    .ok b

/-- A document of the `classes` collection (`_id` is the hex text of the
ObjectId; the class repository always stores real ObjectIds there). -/
structure ClassDoc where
  _id : String
  name : String
  instructor : String
  datetime_ist : Nat
  duration_minutes : Int
  total_slots : Int
  available_slots : Int
  description : Option String
  created_at : Option Nat
  updated_at : Option Nat
deriving DecidableEq

/-- A document of the `bookings` collection.  `class_id` keeps its BSON type:
`BookingRepository.create_booking` stores the plain string it was given. -/
structure BookingDoc where
  _id : String
  class_id : BVal
  client_name : String
  client_email : String
  booking_time : Nat
  status : String
  created_at : Nat
deriving DecidableEq

/-- The data-base state: the two collections, a fresh-ObjectId source for
`insert_one`, and the current clock (`datetime.utcnow()`). -/
structure DbState where
  classes : List ClassDoc
  bookings : List BookingDoc
  next_oid : Nat
  now : Nat
deriving DecidableEq

/-- Hex digit of a value below 16. -/
def hexDigit (n : Nat) : Char :=
  if n < 10 then Char.ofNat (48 + n) else Char.ofNat (87 + n)

/-- A fresh ObjectId generated by the driver for `insert_one`: 24 hex
characters encoding the generator counter. -/
def gen_oid (n : Nat) : String :=
  String.mk (((List.range 24).map (fun i => hexDigit (n / 16 ^ (23 - i) % 16))))

/-- `update_one`: apply `f` to the first document matching `p` (MongoDB
`_id` lookups match at most one document; `update_one` mutates at most
one). -/
def updateFirst {α : Type} (p : α → Bool) (f : α → α) : List α → List α
  | [] => []
  | x :: xs => if p x then f x :: xs else x :: updateFirst p f xs

/-- The raw field translation of `ClassRepository._doc_to_entity`. -/
def ClassDoc.entity_of (d : ClassDoc) : FitnessClass :=
  { id := some d._id
    name := d.name
    instructor := d.instructor
    datetime_ist := d.datetime_ist
    duration_minutes := d.duration_minutes
    total_slots := d.total_slots
    available_slots := d.available_slots
    description := d.description
    created_at := d.created_at
    updated_at := d.updated_at }

/-- `ClassRepository._doc_to_entity`: build the `FitnessClass` dataclass from
a document — running its `__post_init__` validation, which can raise. -/
def ClassDoc.to_entity (d : ClassDoc) : Except Err FitnessClass :=
  FitnessClass.post_init d.entity_of

/-- `ClassRepository.get_class_by_id`: `None` for a syntactically invalid id
or a missing document, otherwise the entity built from the document. -/
def get_class_by_id (class_id : String) (s : DbState) :
    Except Err (Option FitnessClass) :=
  if ¬ isValidObjectId class_id then .ok none
  else
    match s.classes.find? (fun d => d._id == class_id) with
    | none => .ok none
    | some d =>
      match d.to_entity with
      | .ok fc => .ok (some fc)
      | .error e => .error e

/-- `ClassRepository.update_class_slots`: `$set` of `available_slots` and
`updated_at` on the (at most one) document matching `_id`; raises
`ClassNotFoundError` when the id is invalid or nothing matched.  The write is
unconditional — no comparison against `total_slots`. -/
def update_class_slots (class_id : String) (available_slots : Int)
    (s : DbState) : Except Err Bool × DbState :=
  if ¬ isValidObjectId class_id then (.error (.classNotFoundError class_id), s)
  else if s.classes.any (fun d => d._id == class_id) then
    (.ok true,
      { s with classes :=
          (updateFirst (fun d => d._id == class_id)
            (fun d => { d with available_slots := available_slots,
                               updated_at := some s.now }) s.classes) })
  else (.error (.classNotFoundError class_id), s)

/-- `BookingRepository._doc_to_entity` without its constructor validation:
the raw field translation, including the `$lookup` of `class_info` (the
join compares the stored `class_id` BSON value against the `_id` ObjectId of
the classes collection, so a string-typed `class_id` never joins). -/
def BookingDoc.entity_of (b : BookingDoc) (s : DbState) : Booking :=
  let class_info := s.classes.find? (fun d => b.class_id == BVal.oid d._id)
  { id := some b._id
    class_id := b.class_id.toText
    client_name := b.client_name
    client_email := b.client_email
    booking_time := some b.booking_time
    class_name := class_info.map (fun d => d.name)
    class_datetime_ist := class_info.map (fun d => d.datetime_ist)
    instructor := class_info.map (fun d => d.instructor)
    created_at := some b.created_at
    status := b.status }

/-- `BookingRepository._doc_to_entity`: field translation followed by the
`Booking.__post_init__` validation the dataclass constructor runs. -/
def BookingDoc.to_entity (b : BookingDoc) (s : DbState) : Except Err Booking :=
  Booking.post_init (b.entity_of s)

/-- `BookingRepository.get_booking_by_id`. -/
def repo_get_booking_by_id (booking_id : String) (s : DbState) :
    Except Err (Option Booking) :=
  if ¬ isValidObjectId booking_id then .ok none
  else
    match s.bookings.find? (fun b => b._id == booking_id) with
    | none => .ok none
    | some b =>
      match b.to_entity s with
      | .ok bk => .ok (some bk)
      | .error e => .error e

/-- `BookingRepository.check_duplicate_booking`: `find_one` on the typed
query `class_id = ObjectId(class_id), client_email = email.lower(),
status = confirmed`. -/
def check_duplicate_booking (class_id client_email : String) (s : DbState) :
    Bool :=
  if ¬ isValidObjectId class_id then false
  else s.bookings.any (fun b =>
    b.class_id == BVal.oid class_id &&
    b.client_email == py_lower client_email &&
    b.status == "confirmed")

/-- `BookingRepository.create_booking`: for an invalid `class_id` the dead
conversion `ObjectId(booking.class_id)` raises `bson.errors.InvalidId`;
otherwise the document stores the *string* `class_id` and the stripped name
and e-mail, and `insert_one` raises `DuplicateKeyError` — surfaced as
`DuplicateBookingError` — exactly when the unique `(class_id, client_email)`
index (created by `init_db`) is violated. -/
def repo_create_booking (b : Booking) (s : DbState) :
    Except Err Booking × DbState :=
  if ¬ isValidObjectId b.class_id then (.error .invalidIdError, s)
  else
    let doc : BookingDoc :=
      { _id := gen_oid s.next_oid
        class_id := BVal.str b.class_id
        client_name := py_strip b.client_name
        client_email := py_strip b.client_email
        booking_time := b.booking_time.getD s.now
        status := b.status
        created_at := b.created_at.getD s.now }
    if s.bookings.any (fun x =>
        x.class_id == doc.class_id && x.client_email == doc.client_email) then
      (.error (.duplicateBookingError b.class_id b.client_email), s)
    else
      (.ok { b with id := some doc._id },
        { s with bookings := s.bookings ++ [doc], next_oid := s.next_oid + 1 })

/-- `BookingRepository.cancel_booking`: `update_one` on
`_id = booking_id, status = confirmed`, setting `status = cancelled`;
`False` when the id is invalid or nothing matched. -/
def repo_cancel_booking (booking_id : String) (s : DbState) :
    Except Err Bool × DbState :=
  if ¬ isValidObjectId booking_id then (.ok false, s)
  else if s.bookings.any (fun b => b._id == booking_id && b.status == "confirmed") then
    (.ok true,
      { s with bookings :=
          (updateFirst (fun b => b._id == booking_id && b.status == "confirmed")
            (fun b => { b with status := "cancelled" }) s.bookings) })
  else (.ok false, s)

/-- `BookingRepository.get_bookings_by_email`: match on the lowered e-mail,
filtering out cancelled bookings unless requested, then entity
conversion. -/
def repo_get_bookings_by_email (client_email : String)
    (include_cancelled : Bool) (s : DbState) : Except Err (List Booking) :=
  (s.bookings.filter (fun b =>
      b.client_email == py_lower client_email &&
      (include_cancelled || !(b.status == "cancelled")))).mapM
    (fun b => b.to_entity s)

/-- Insertion sort by a boolean relation, modelling the `$sort` stage of
`get_all_bookings`. -/
def sortInsert {α : Type} (le : α → α → Bool) (x : α) : List α → List α
  | [] => [x]
  | y :: ys => if le x y then x :: y :: ys else y :: sortInsert le x ys

/-- Insertion sort (stable, as MongoDB sorts are for this model's use). -/
def sortBy {α : Type} (le : α → α → Bool) : List α → List α
  | [] => []
  | x :: xs => sortInsert le x (sortBy le xs)

/-- `BookingRepository.get_all_bookings(limit=-1)`: every document, sorted by
`created_at` descending, converted to entities. -/
def repo_get_all_bookings (s : DbState) : Except Err (List Booking) :=
  (sortBy (fun a b => decide (b.created_at ≤ a.created_at)) s.bookings).mapM
    (fun b => b.to_entity s)

/-- `BookingService.create_booking`: the precondition sequence (id format,
class existence, remaining capacity, duplicate check), then the `Booking`
construction (running its `__post_init__`), the ledger insert, and the slot
decrement `available_slots - 1` written back through
`update_class_slots`. -/
def service_create_booking (class_id client_name client_email : String)
    (s : DbState) : Except Err Booking × DbState :=
  if ¬ isValidObjectId class_id then
    (.error (.validationError "Invalid class ID format"), s)
  else
    match get_class_by_id class_id s with
    | .error e => (.error e, s)
    | .ok none => (.error (.classNotFoundError class_id), s)
    | .ok (some fitness_class) =>
      if fitness_class.available_slots ≤ 0 then
        (.error (.validationError "No available slots for this class"), s)
      else if check_duplicate_booking class_id client_email s then
        (.error (.duplicateBookingError class_id client_email), s)
      else
        match Booking.post_init
            { id := none
              class_id := class_id
              client_name := client_name
              client_email := client_email
              booking_time := some s.now
              class_name := some fitness_class.name
              class_datetime_ist := some fitness_class.datetime_ist
              instructor := some fitness_class.instructor
              created_at := none
              status := "confirmed" } with
        | .error e => (.error e, s)
        | .ok booking =>
          match repo_create_booking booking s with
          | (.error e, s1) => (.error e, s1)
          | (.ok created_booking, s1) =>
            match update_class_slots class_id
                (fitness_class.available_slots - 1) s1 with
            | (.error e, s2) => (.error e, s2)
            | (.ok updated, s2) =>
              if updated then (.ok created_booking, s2)
              else (.error (.databaseError "Failed to update class slots"), s2)

/-- `BookingService.get_bookings_by_email`: blank e-mail raises
`ValidationError` before any ledger access; otherwise the stripped, lowered
e-mail is looked up. -/
def service_get_bookings_by_email (client_email : String)
    (include_cancelled : Bool) (s : DbState) : Except Err (List Booking) :=
  if client_email = "" ∨ py_strip client_email = "" then
    .error (.validationError "Email address is required")
  else
    repo_get_bookings_by_email (py_lower (py_strip client_email))
      include_cancelled s

/-- `BookingService.cancel_booking`: absence of the booking raises
`BookingNotFoundError`; on a successful `confirmed → cancelled` transition
the referenced class, when still present, gets `available_slots + 1` written
back unconditionally. -/
def service_cancel_booking (booking_id : String) (s : DbState) :
    Except Err Bool × DbState :=
  match repo_get_booking_by_id booking_id s with
  | .error e => (.error e, s)
  | .ok none => (.error (.bookingNotFoundError booking_id), s)
  | .ok (some booking) =>
    match repo_cancel_booking booking_id s with
    | (.error e, s1) => (.error e, s1)
    | (.ok success, s1) =>
      if success then
        match get_class_by_id booking.class_id s1 with
        | .error e => (.error e, s1)
        | .ok none => (.ok true, s1)
        | .ok (some fitness_class) =>
          match update_class_slots booking.class_id
              (fitness_class.available_slots + 1) s1 with
          | (.error e, s2) => (.error e, s2)
          | (.ok _, s2) => (.ok true, s2)
      else (.ok false, s1)

/-- The aggregate returned by `BookingService.get_booking_stats`; rates are
exact rationals standing for the Python floats. -/
structure BookingStats where
  total_bookings : Nat
  confirmed_bookings : Nat
  cancelled_bookings : Nat
  pending_bookings : Nat
  unique_clients : Nat
  confirmation_rate : ℚ
  cancellation_rate : ℚ
deriving DecidableEq

/-- `sum(1 for b in all_bookings if b.status == st)`. -/
def count_status (all_bookings : List Booking) (st : String) : Nat :=
  (all_bookings.map (fun b => if b.status == st then 1 else 0)).sum

/-- `len(set(b.client_email for b in all_bookings))`. -/
def unique_client_count (all_bookings : List Booking) : Nat :=
  (all_bookings.foldl (fun acc b => insert b.client_email acc)
    (∅ : Finset String)).card

/-- `BookingService.get_booking_stats`: full booking set (cancelled
included), counts per status, distinct clients, guarded rate formulas. -/
def service_get_booking_stats (s : DbState) : Except Err BookingStats :=
  match repo_get_all_bookings s with
  | .error e => .error e
  | .ok all_bookings =>
    let total_bookings := all_bookings.length
    let confirmed_bookings := count_status all_bookings "confirmed"
    let cancelled_bookings := count_status all_bookings "cancelled"
    let pending_bookings := count_status all_bookings "pending"
    let unique_clients := unique_client_count all_bookings
    .ok
      { total_bookings := total_bookings
        confirmed_bookings := confirmed_bookings
        cancelled_bookings := cancelled_bookings
        pending_bookings := pending_bookings
        unique_clients := unique_clients
        confirmation_rate :=
          if total_bookings > 0 then
            (confirmed_bookings : ℚ) / (total_bookings : ℚ) * 100
          else 0
        cancellation_rate :=
          if total_bookings > 0 then
            (cancelled_bookings : ℚ) / (total_bookings : ℚ) * 100
          else 0 }

/-- Well-formedness of a booking document: a valid ObjectId, non-blank name
and e-mail, a legal status.  Every document the repository itself inserts
satisfies this. -/
def BookingDoc.wf (b : BookingDoc) : Prop :=
  isValidObjectId b._id = true ∧
  py_strip b.client_name ≠ "" ∧
  py_strip b.client_email ≠ "" ∧
  (b.status = "confirmed" ∨ b.status = "cancelled" ∨ b.status = "pending")

/-- Well-formedness of a class document: a valid ObjectId and the entity
invariants checked by `FitnessClass.__post_init__`. -/
def ClassDoc.wf (d : ClassDoc) : Prop :=
  isValidObjectId d._id = true ∧
  1 ≤ d.total_slots ∧
  0 ≤ d.available_slots ∧
  d.available_slots ≤ d.total_slots ∧
  15 ≤ d.duration_minutes

/-- Well-formed data-base state: well-formed documents and unique `_id`
values per collection (MongoDB enforces `_id` uniqueness). -/
def DbState.wf (s : DbState) : Prop :=
  (∀ b ∈ s.bookings, b.wf) ∧
  (s.bookings.map (fun b => b._id)).Nodup ∧
  (∀ d ∈ s.classes, d.wf) ∧
  (s.classes.map (fun d => d._id)).Nodup

/-! ### Definitions used by the claim statements and witnesses -/

/-- The disjunction of rejection conditions checked by
`FitnessClass.__post_init__`. -/
def rejectedClass (c : FitnessClass) : Prop :=
  c.total_slots < 1 ∨ c.available_slots < 0 ∨
    c.available_slots > c.total_slots ∨ c.duration_minutes < 15

instance (c : FitnessClass) : Decidable (rejectedClass c) := by
  unfold rejectedClass; infer_instance

instance (b : BookingDoc) : Decidable b.wf := by
  unfold BookingDoc.wf; infer_instance

instance (d : ClassDoc) : Decidable d.wf := by
  unfold ClassDoc.wf; infer_instance

instance (s : DbState) : Decidable s.wf := by
  unfold DbState.wf; infer_instance

/-- The class-document fields that booking-workflow operations may never
write: everything except `available_slots` and the `updated_at`
bookkeeping timestamp. -/
def class_core (d : ClassDoc) :
    String × String × String × Nat × Int × Int × Option String × Option Nat :=
  (d._id, d.name, d.instructor, d.datetime_ist, d.duration_minutes,
    d.total_slots, d.description, d.created_at)

/-- Frame relation between a class document before and after an operation
that may touch only the class identified by `t`, and only its
`available_slots` / `updated_at` fields. -/
def frame_rel (t : String) (d d' : ClassDoc) : Prop :=
  class_core d' = class_core d ∧ (d._id ≠ t → d' = d)

/-- A concrete valid class value for the C8 witness. -/
def exC8 : FitnessClass :=
  ⟨none, "Yoga", "Sarah", 100, 60, 10, 4, none, none, none⟩

/-- A valid class instance on which a negative reserve request breaks the
capacity invariant. -/
def exC4 : FitnessClass :=
  ⟨none, "Pilates", "Mark", 100, 30, 1, 1, none, none, none⟩

/-- The class used by the C1 scenario: capacity 2, both seats free. -/
def c1_class : ClassDoc :=
  ⟨"aaaaaaaaaaaaaaaaaaaaaaaa", "Yoga", "Sarah", 100, 60, 2, 2, none,
    some 0, some 0⟩

/-- Initial state of the C1 scenario: one class, empty ledger. -/
def c1_st0 : DbState := ⟨[c1_class], [], 0, 5⟩

/-- Ledger id handed to the first booking of the C1 scenario. -/
def c1_bid : String := gen_oid 0

/-- State after the first successful booking of the C1 scenario. -/
def c1_st1 : DbState :=
  (service_create_booking "aaaaaaaaaaaaaaaaaaaaaaaa" "Jane Doe" "jane@x.com"
    c1_st0).2

/-- State after that booking has been successfully cancelled. -/
def c1_st2 : DbState := (service_cancel_booking c1_bid c1_st1).2

/-- The class of the C3 scenario: already at full capacity 5/5. -/
def c3_class : ClassDoc :=
  ⟨"aaaaaaaaaaaaaaaaaaaaaaaa", "Yoga", "Sarah", 100, 60, 5, 5, none,
    some 0, some 0⟩

/-- A confirmed ledger document referencing that class. -/
def c3_booking : BookingDoc :=
  ⟨"bbbbbbbbbbbbbbbbbbbbbbbb", BVal.str "aaaaaaaaaaaaaaaaaaaaaaaa", "Jane",
    "jane@x.com", 1, "confirmed", 1⟩

/-- State of the C3 scenario. -/
def c3_st : DbState := ⟨[c3_class], [c3_booking], 0, 9⟩

/-- Witness class record: capacity 10, four seats free. -/
def w_class : ClassDoc :=
  ⟨"aaaaaaaaaaaaaaaaaaaaaaaa", "Yoga", "Sarah", 100, 60, 10, 4, none,
    some 0, some 0⟩

/-- Witness class record with no free seats. -/
def w_class0 : ClassDoc :=
  ⟨"eeeeeeeeeeeeeeeeeeeeeeee", "HIIT", "Mark", 200, 45, 3, 0, none,
    some 0, some 0⟩

/-- Witness booking: confirmed seat in `w_class`. -/
def w_booking1 : BookingDoc :=
  ⟨"bbbbbbbbbbbbbbbbbbbbbbb1", BVal.str "aaaaaaaaaaaaaaaaaaaaaaaa", "Jane",
    "jane@x.com", 1, "confirmed", 1⟩

/-- Witness booking: an already-cancelled one. -/
def w_booking2 : BookingDoc :=
  ⟨"bbbbbbbbbbbbbbbbbbbbbbb2", BVal.str "aaaaaaaaaaaaaaaaaaaaaaaa", "Bob",
    "bob@x.com", 2, "cancelled", 2⟩

/-- Witness state shared by several witnesses: two classes, one confirmed
and one cancelled booking. -/
def w_st : DbState := ⟨[w_class, w_class0], [w_booking1, w_booking2], 0, 7⟩

/-- Witness booking whose class is no longer in the catalog. -/
def w6_booking : BookingDoc :=
  ⟨"bbbbbbbbbbbbbbbbbbbbbbb3", BVal.str "dddddddddddddddddddddddd", "Jane",
    "jane@x.com", 1, "confirmed", 1⟩

/-- Witness state for the orphan-class cancellation. -/
def w6_st : DbState := ⟨[w_class], [w6_booking], 0, 7⟩

/-! ### Helper lemmas -/

theorem char_toNat_ofNat_valid (n : Nat) (h : n.isValidChar) :
    (Char.ofNat n).toNat = n := by
  unfold Char.ofNat
  rw [dif_pos h]
  rfl

theorem py_char_lower_idem (c : Char) :
    py_char_lower (py_char_lower c) = py_char_lower c := by
  unfold py_char_lower
  by_cases h : 65 ≤ c.toNat ∧ c.toNat ≤ 90
  · rw [if_pos h]
    have hv : Nat.isValidChar (c.toNat + 32) := Or.inl (by omega)
    have ht : (Char.ofNat (c.toNat + 32)).toNat = c.toNat + 32 :=
      char_toNat_ofNat_valid _ hv
    rw [if_neg (by omega)]
  · rw [if_neg h, if_neg h]

theorem py_lower_idem (s : String) : py_lower (py_lower s) = py_lower s := by
  unfold py_lower
  simp [List.map_map, Function.comp_def, py_char_lower_idem]

theorem py_strip_empty : py_strip "" = "" := rfl

/-- Under a key function whose images are distinct, `find?` on the key of a
member returns exactly that member. -/
theorem find?_key_eq {α : Type} (key : α → String) :
    ∀ (l : List α), (l.map key).Nodup → ∀ b ∈ l,
      l.find? (fun x => key x == key b) = some b := by
  intro l
  induction l with
  | nil => intro _ b hb; cases hb
  | cons a l ih =>
    intro hn b hb
    rcases List.mem_cons.mp hb with rfl | hb'
    · simp [List.find?]
    · have hne : key a ≠ key b := by
        intro he
        have : key b ∈ l.map key := List.mem_map_of_mem key hb'
        rw [← he] at this
        exact (List.nodup_cons.mp hn).1 this
      have : (key a == key b) = false := beq_eq_false_iff_ne.mpr hne
      simp only [List.find?, this]
      exact ih (List.nodup_cons.mp hn).2 b hb'

/-- A well-formed booking document converts to its entity without raising. -/
theorem bookingDoc_to_entity_ok (b : BookingDoc) (s : DbState) (h : b.wf) :
    b.to_entity s = .ok (b.entity_of s) := by
  obtain ⟨-, hn, he, hst⟩ := h
  have hn' : b.client_name ≠ "" := fun h0 => hn (by rw [h0]; rfl)
  have he' : b.client_email ≠ "" := fun h0 => he (by rw [h0]; rfl)
  rcases hst with h1 | h1 | h1 <;>
    simp [BookingDoc.to_entity, Booking.post_init, BookingDoc.entity_of,
      h1, hn, he, hn', he']

/-- A well-formed class document converts to its entity without raising. -/
theorem classDoc_to_entity_ok (d : ClassDoc) (h : d.wf) :
    d.to_entity = .ok d.entity_of := by
  obtain ⟨-, h1, h2, h3, h4⟩ := h
  simp only [ClassDoc.to_entity, FitnessClass.post_init, ClassDoc.entity_of]
  rw [if_neg (by omega), if_neg (by omega), if_neg (by omega),
    if_neg (by omega)]

/-- Entity conversion of a list of well-formed documents never raises and is
the pointwise raw translation. -/
theorem mapM_to_entity_ok (s : DbState) :
    ∀ (l : List BookingDoc), (∀ b ∈ l, b.wf) →
      (l.mapM (fun b => b.to_entity s)) =
        .ok (l.map (fun b => b.entity_of s)) := by
  intro l
  induction l with
  | nil => intro _; rfl
  | cons a l ih =>
    intro h
    rw [List.mapM_cons, bookingDoc_to_entity_ok a s (h a (List.mem_cons_self a l)),
      ih (fun b hb => h b (List.mem_cons_of_mem a hb))]
    rfl

theorem sortInsert_perm {α : Type} (le : α → α → Bool) (x : α) :
    ∀ l : List α, (sortInsert le x l).Perm (x :: l) := by
  intro l
  induction l with
  | nil => exact List.Perm.refl _
  | cons y ys ih =>
    unfold sortInsert
    by_cases h : le x y
    · rw [if_pos h]
    · rw [if_neg h]
      exact (ih.cons y).trans (List.Perm.swap x y ys)

theorem sortBy_perm {α : Type} (le : α → α → Bool) :
    ∀ l : List α, (sortBy le l).Perm l := by
  intro l
  induction l with
  | nil => exact List.Perm.refl _
  | cons x xs ih =>
    exact (sortInsert_perm le x (sortBy le xs)).trans (ih.cons x)

theorem frame_rel_refl (t : String) :
    ∀ l : List ClassDoc, List.Forall₂ (frame_rel t) l l := by
  intro l
  induction l with
  | nil => constructor
  | cons a l ih => exact List.Forall₂.cons ⟨rfl, fun _ => rfl⟩ ih

/-- `update_one` keyed on `_id = t` relates before and after states by the
frame relation, provided the update function does not touch the core
fields. -/
theorem updateFirst_frame (t : String) (f : ClassDoc → ClassDoc)
    (hf : ∀ d, class_core (f d) = class_core d) :
    ∀ l : List ClassDoc,
      List.Forall₂ (frame_rel t) l (updateFirst (fun d => d._id == t) f l) := by
  intro l
  induction l with
  | nil => constructor
  | cons a l ih =>
    unfold updateFirst
    by_cases h : (a._id == t) = true
    · rw [if_pos h]
      exact List.Forall₂.cons
        ⟨hf a, fun hne => absurd (eq_of_beq h) hne⟩ (frame_rel_refl t l)
    · rw [if_neg h]
      exact List.Forall₂.cons ⟨rfl, fun _ => rfl⟩ ih

theorem foldl_insert_toFinset :
    ∀ (l : List Booking) (acc : Finset String),
      l.foldl (fun acc b => insert b.client_email acc) acc =
        acc ∪ (l.map (fun b => b.client_email)).toFinset := by
  intro l
  induction l with
  | nil => intro acc; simp
  | cons a l ih =>
    intro acc
    rw [List.foldl_cons, ih]
    ext x
    simp [or_assoc]

theorem count_status_eq_countP (l : List Booking) (st : String) :
    count_status l st = l.countP (fun b => b.status == st) := by
  induction l with
  | nil => rfl
  | cons a l ih =>
    simp only [count_status, List.map_cons, List.sum_cons, List.countP_cons] at *
    rw [ih]
    by_cases h : (a.status == st) = true <;> simp [h] <;> omega


/-- `Booking.__post_init__` succeeds on a legal status and non-blank name and
e-mail, returning the instance unchanged. -/
theorem Booking.post_init_ok (bk : Booking)
    (h1 : bk.status = "confirmed" ∨ bk.status = "cancelled" ∨
      bk.status = "pending")
    (h2 : py_strip bk.client_name ≠ "") (h3 : py_strip bk.client_email ≠ "") :
    Booking.post_init bk = .ok bk := by
  have h2' : bk.client_name ≠ "" := fun h0 => h2 (by rw [h0]; rfl)
  have h3' : bk.client_email ≠ "" := fun h0 => h3 (by rw [h0]; rfl)
  rcases h1 with h1 | h1 | h1 <;>
    simp [Booking.post_init, h1, h2, h3, h2', h3']


/-- Under well-formed class documents, `get_class_by_id` never raises: it
returns `none`, or the entity of the unique matching document. -/
theorem get_class_by_id_cases (cid : String) (s : DbState)
    (hw : ∀ d ∈ s.classes, d.wf) :
    get_class_by_id cid s = .ok none ∨
    ∃ d, s.classes.find? (fun x => x._id == cid) = some d ∧
      isValidObjectId cid = true ∧
      get_class_by_id cid s = .ok (some d.entity_of) := by
  unfold get_class_by_id
  by_cases hv : isValidObjectId cid = true
  · rcases hfind : s.classes.find? (fun x => x._id == cid) with _ | d
    · left
      rw [if_neg (by simp [hv]), hfind]
    · right
      refine ⟨d, hfind, hv, ?_⟩
      rw [if_neg (by simp [hv]), hfind]
      dsimp only
      rw [classDoc_to_entity_ok d (hw d (List.mem_of_find?_eq_some hfind))]
  · left
    rw [if_pos (by simp [hv])]

/-! ### Claim theorems -/

/-- C8: constructing a `FitnessClass` raises a domain error (`ValueError`,
never a silent clamp) exactly when `total_slots < 1`, `available_slots < 0`,
`available_slots > total_slots`, or `duration_minutes` is below the
configured minimum of 15; for all other field values construction succeeds
with the fields stored exactly as given. -/
theorem C8_fitness_class_construction (c : FitnessClass) :
    ((∃ msg, FitnessClass.post_init c = .error (.valueError msg)) ↔
      rejectedClass c) ∧
    (¬ rejectedClass c → FitnessClass.post_init c = .ok c) := by
  unfold FitnessClass.post_init rejectedClass
  split_ifs with h1 h2 h3 h4 <;> simp_all <;> omega

/-- Witness for C8: a concrete in-range construction succeeds unchanged, and
a concrete out-of-range construction is rejected. -/
theorem C8_fitness_class_construction_witness :
    FitnessClass.post_init exC8 = .ok exC8 ∧
    (∃ msg, FitnessClass.post_init { exC8 with available_slots := 11 } =
      .error (.valueError msg)) :=
  ⟨(C8_fitness_class_construction exC8).2 (by decide),
    ((C8_fitness_class_construction { exC8 with available_slots := 11 }).1).2
      (by decide)⟩

/-- C4 counterexample: the claim quantifies over arbitrary requested slot
counts, but `book_slot` accepts a negative count: from the validly
constructed class with `total_slots = available_slots = 1`, the single call
sequence `[book_slot(-1)]` returns true and leaves
`available_slots = 2 > total_slots = 1`, so the invariant
`available_slots ≤ total_slots` fails after a finite sequence of reserve
calls. -/
theorem C4_negative_slots_break_invariant :
    FitnessClass.post_init exC4 = .ok exC4 ∧
    (exC4.book_slot (-1)).1 = true ∧
    (applySlotOps exC4 [SlotOp.book (-1)]).available_slots = 2 ∧
    (applySlotOps exC4 [SlotOp.book (-1)]).total_slots = 1 ∧
    ¬ ((applySlotOps exC4 [SlotOp.book (-1)]).available_slots ≤
        (applySlotOps exC4 [SlotOp.book (-1)]).total_slots) := by
  decide

/-- One slot call with a nonnegative requested count preserves the capacity
invariant and never touches `total_slots`. -/
theorem applySlotOp_invariant (c : FitnessClass) (op : SlotOp)
    (hop : 0 ≤ op.slots) (h0 : 0 ≤ c.available_slots)
    (h1 : c.available_slots ≤ c.total_slots) :
    (applySlotOp c op).2.total_slots = c.total_slots ∧
    0 ≤ (applySlotOp c op).2.available_slots ∧
    (applySlotOp c op).2.available_slots ≤ (applySlotOp c op).2.total_slots := by
  cases op with
  | book n =>
    simp only [applySlotOp, FitnessClass.book_slot, FitnessClass.can_book,
      SlotOp.slots] at *
    split_ifs with h <;> simp_all <;> omega
  | cancel n =>
    simp only [applySlotOp, FitnessClass.cancel_slot, SlotOp.slots] at *
    split_ifs with h <;> simp_all <;> omega

/-- C4 (amended): for every `FitnessClass` constructed with
`0 ≤ available_slots ≤ total_slots`, any finite sequence of reserve
(`book_slot`) and release (`cancel_slot`) calls with nonnegative requested
slot counts — each succeeding or failing — preserves
`0 ≤ available_slots ≤ total_slots`; a call that returns false leaves the
instance unchanged (for every requested count, negative ones included), and
reserve succeeds, decrementing by the requested count, exactly when
`available_slots ≥ slots`. -/
theorem C4_slot_invariant (c : FitnessClass) (ops : List SlotOp)
    (h0 : 0 ≤ c.available_slots) (h1 : c.available_slots ≤ c.total_slots)
    (hops : ∀ op ∈ ops, 0 ≤ op.slots) :
    ((applySlotOps c ops).total_slots = c.total_slots ∧
      0 ≤ (applySlotOps c ops).available_slots ∧
      (applySlotOps c ops).available_slots ≤ (applySlotOps c ops).total_slots) ∧
    (∀ (d : FitnessClass) (n : Int),
      (d.book_slot n).1 = false → (d.book_slot n).2 = d) ∧
    (∀ (d : FitnessClass) (n : Int),
      (d.cancel_slot n).1 = false → (d.cancel_slot n).2 = d) ∧
    (∀ (d : FitnessClass) (n : Int),
      ((d.book_slot n).1 = true ↔ d.available_slots ≥ n) ∧
      ((d.book_slot n).1 = true →
        (d.book_slot n).2.available_slots = d.available_slots - n)) := by
  refine ⟨?_, ?_, ?_, ?_⟩
  · induction ops generalizing c with
    | nil => exact ⟨rfl, h0, h1⟩
    | cons op ops ih =>
      have hop : 0 ≤ op.slots := hops op (List.mem_cons_self op ops)
      have hstep := applySlotOp_invariant c op hop h0 h1
      have hrest := ih (applySlotOp c op).2 hstep.2.1 hstep.2.2
        (fun o ho => hops o (List.mem_cons_of_mem op ho))
      exact ⟨by simpa [applySlotOps, hstep.1] using hrest.1,
        by simpa [applySlotOps] using hrest.2.1,
        by simpa [applySlotOps] using hrest.2.2⟩
  · intro d n
    simp only [FitnessClass.book_slot, FitnessClass.can_book]
    split_ifs <;> simp
  · intro d n
    simp only [FitnessClass.cancel_slot]
    split_ifs <;> simp
  · intro d n
    simp only [FitnessClass.book_slot, FitnessClass.can_book]
    constructor
    · split_ifs with h <;> simp_all
    · split_ifs with h <;> simp_all

/-- Witness for the amended C4 at a concrete class and call sequence. -/
theorem C4_slot_invariant_witness :
    (applySlotOps exC8 [SlotOp.book 2, SlotOp.cancel 1, SlotOp.book 9,
      SlotOp.cancel 9]).available_slots ≤
      (applySlotOps exC8 [SlotOp.book 2, SlotOp.cancel 1, SlotOp.book 9,
        SlotOp.cancel 9]).total_slots :=
  (C4_slot_invariant exC8 [SlotOp.book 2, SlotOp.cancel 1, SlotOp.book 9,
    SlotOp.cancel 9] (by decide) (by decide) (by decide)).1.2.2

/-- C1: the re-booking half of the claim fails on the code.  Concrete run:
`create_booking` for (class, "jane@x.com") succeeds; cancelling the created
booking succeeds and restores the seat, leaving no confirmed booking for the
pair and full capacity; yet the same `create_booking` now raises
`DuplicateBookingError` and persists nothing.  The cancelled ledger document
still occupies the unique `(class_id, client_email)` index `init_db`
creates — the index ignores `status`, documents are never deleted, and the
status-aware `check_duplicate_booking` never matches because it queries
`class_id` as an `ObjectId` while the repository stored a plain string. -/
theorem C1_rebook_after_cancel_fails :
    ((service_create_booking "aaaaaaaaaaaaaaaaaaaaaaaa" "Jane Doe"
        "jane@x.com" c1_st0).1.toOption.map (fun b => b.id) =
      some (some c1_bid)) ∧
    (service_cancel_booking c1_bid c1_st1).1 = .ok true ∧
    c1_st2.bookings.filter (fun b => b.status == "confirmed") = [] ∧
    check_duplicate_booking "aaaaaaaaaaaaaaaaaaaaaaaa" "jane@x.com" c1_st2 =
      false ∧
    c1_st2.classes.map (fun d => (d.available_slots, d.total_slots)) =
      [(2, 2)] ∧
    (service_create_booking "aaaaaaaaaaaaaaaaaaaaaaaa" "Jane Doe"
        "jane@x.com" c1_st2).1 =
      .error (.duplicateBookingError "aaaaaaaaaaaaaaaaaaaaaaaa"
        "jane@x.com") ∧
    (service_create_booking "aaaaaaaaaaaaaaaaaaaaaaaa" "Jane Doe"
        "jane@x.com" c1_st2).2 = c1_st2 := by
  decide

/-- C3 fails on the code: the seat restoration of `cancel_booking` is the
unconditional write `available_slots + 1` through `update_class_slots`, not
the bounded `cancel_slot` release.  From a well-formed state whose class is
at `available_slots = total_slots = 5` with a confirmed booking, cancelling
persists `available_slots = 6 > total_slots = 5`; reading the class back
afterwards raises the entity constructor's own `ValueError`, so the code
contradicts its own invariant. -/
theorem C3_cancel_persists_over_capacity :
    c3_st.wf ∧
    (service_cancel_booking "bbbbbbbbbbbbbbbbbbbbbbbb" c3_st).1 = .ok true ∧
    ((service_cancel_booking "bbbbbbbbbbbbbbbbbbbbbbbb" c3_st).2.classes.map
        (fun d => (d.available_slots, d.total_slots))) = [(6, 5)] ∧
    get_class_by_id "aaaaaaaaaaaaaaaaaaaaaaaa"
        (service_cancel_booking "bbbbbbbbbbbbbbbbbbbbbbbb" c3_st).2 =
      .error (.valueError "Available slots cannot exceed total slots") := by
  decide

/-- C10: `get_bookings_by_email` raises `ValidationError` whenever the
e-mail argument is empty or whitespace-only, for every value of
`include_cancelled` and independently of the ledger (no lookup happens); for
a non-blank e-mail it returns, without raising, exactly the bookings whose
stored e-mail matches the normalized (stripped, lowered) argument, cancelled
ones filtered out unless requested. -/
theorem C10_get_bookings_by_email :
    (∀ (client_email : String) (include_cancelled : Bool) (s : DbState),
      py_strip client_email = "" →
        service_get_bookings_by_email client_email include_cancelled s =
          .error (.validationError "Email address is required")) ∧
    (∀ (client_email : String) (include_cancelled : Bool) (s : DbState),
      py_strip client_email ≠ "" → (∀ b ∈ s.bookings, b.wf) →
        service_get_bookings_by_email client_email include_cancelled s =
          .ok ((s.bookings.filter (fun b =>
              b.client_email == py_lower (py_strip client_email) &&
              (include_cancelled || !(b.status == "cancelled")))).map
            (fun b => b.entity_of s))) := by
  constructor
  · intro ce inc s h
    unfold service_get_bookings_by_email
    rw [if_pos (Or.inr h)]
  · intro ce inc s h hwf
    unfold service_get_bookings_by_email
    have hcond : ¬ (ce = "" ∨ py_strip ce = "") := by
      rintro (rfl | h2)
      · exact h py_strip_empty
      · exact h h2
    rw [if_neg hcond]
    unfold repo_get_bookings_by_email
    simp only [py_lower_idem]
    exact mapM_to_entity_ok s _ (fun b hb => hwf b (List.mem_of_mem_filter hb))

/-- Witness for C10 at a blank and at a non-blank e-mail on a concrete
state. -/
theorem C10_get_bookings_by_email_witness :
    service_get_bookings_by_email "  " true w_st =
      .error (.validationError "Email address is required") ∧
    service_get_bookings_by_email "JANE@x.com" false w_st =
      .ok [w_booking1.entity_of w_st] :=
  ⟨C10_get_bookings_by_email.1 "  " true w_st (by decide),
    (C10_get_bookings_by_email.2 "JANE@x.com" false w_st (by decide)
      (by decide)).trans (by decide)⟩

/-- C6: if `cancel_booking` transitions a confirmed booking to cancelled but
the referenced class is no longer in the catalog, the call still returns
true — the ledger document is flipped to cancelled — and the classes
collection is left completely unchanged, so no `available_slots` is
incremented anywhere. -/
theorem C6_cancel_orphan_class (s : DbState) (b : BookingDoc) (hwf : s.wf)
    (hb : b ∈ s.bookings) (hst : b.status = "confirmed")
    (hcls : ∀ d ∈ s.classes, d._id ≠ b.class_id.toText) :
    service_cancel_booking b._id s =
      (.ok true,
        { s with bookings :=
            (updateFirst (fun x => x._id == b._id && x.status == "confirmed")
              (fun x => { x with status := "cancelled" }) s.bookings) }) ∧
    (service_cancel_booking b._id s).2.classes = s.classes := by
  obtain ⟨hbwf, hnodup, hcwf, hcnodup⟩ := hwf
  have hbw := hbwf b hb
  have hid : isValidObjectId b._id = true := hbw.1
  have h1 : repo_get_booking_by_id b._id s = .ok (some (b.entity_of s)) := by
    unfold repo_get_booking_by_id
    rw [if_neg (by simp [hid]),
      find?_key_eq (fun x => x._id) s.bookings hnodup b hb]
    dsimp only
    rw [bookingDoc_to_entity_ok b s hbw]
  have hany : (s.bookings.any
      (fun x => x._id == b._id && x.status == "confirmed")) = true :=
    List.any_eq_true.mpr ⟨b, hb, by simp [hst]⟩
  have h2 : repo_cancel_booking b._id s =
      (.ok true,
        { s with bookings :=
            (updateFirst (fun x => x._id == b._id && x.status == "confirmed")
              (fun x => { x with status := "cancelled" }) s.bookings) }) := by
    unfold repo_cancel_booking
    rw [if_neg (by simp [hid]), if_pos hany]
  have hcid : (b.entity_of s).class_id = b.class_id.toText := rfl
  have h3 : ∀ s1 : DbState, s1.classes = s.classes →
      get_class_by_id ((b.entity_of s).class_id) s1 = .ok none := by
    intro s1 hs1
    rw [hcid]
    unfold get_class_by_id
    by_cases hv : isValidObjectId (b.class_id.toText) = true
    · rw [if_neg (by simp [hv]), hs1,
        List.find?_eq_none.mpr (fun d hd => by simpa using hcls d hd)]
    · rw [if_pos (by simp [hv])]
  have hres := h3 { s with bookings :=
      (updateFirst (fun x => x._id == b._id && x.status == "confirmed")
        (fun x => { x with status := "cancelled" }) s.bookings) } rfl
  constructor
  · unfold service_cancel_booking
    rw [h1]
    dsimp only
    rw [h2]
    dsimp only
    rw [hres]
    rfl
  · unfold service_cancel_booking
    rw [h1]
    dsimp only
    rw [h2]
    dsimp only
    rw [hres]
    rfl

/-- Witness for C6: cancelling a confirmed booking whose class was deleted
returns true and leaves the (other) class records untouched. -/
theorem C6_cancel_orphan_class_witness :
    service_cancel_booking "bbbbbbbbbbbbbbbbbbbbbbb3" w6_st =
      (.ok true,
        { w6_st with bookings :=
            (updateFirst
              (fun x => x._id == "bbbbbbbbbbbbbbbbbbbbbbb3" &&
                x.status == "confirmed")
              (fun x => { x with status := "cancelled" }) w6_st.bookings) }) ∧
    (service_cancel_booking "bbbbbbbbbbbbbbbbbbbbbbb3" w6_st).2.classes =
      w6_st.classes :=
  C6_cancel_orphan_class w6_st w6_booking (by decide) (by decide) (by decide)
    (by decide)

/-- C2: `create_booking` checks its preconditions in exactly the claimed
order, raising the error of the first one that fails — syntactically invalid
`class_id` gives `ValidationError`, an absent class gives
`ClassNotFoundError`, a full class gives the no-available-slots
`ValidationError`, and an existing confirmed booking for the pair gives
`DuplicateBookingError` — and every failing case returns the state
unchanged: no booking persisted, no slot decremented. -/
theorem C2_create_booking_error_order :
    (∀ (s : DbState) (cid nm em : String),
      isValidObjectId cid = false →
        service_create_booking cid nm em s =
          (.error (.validationError "Invalid class ID format"), s)) ∧
    (∀ (s : DbState) (cid nm em : String),
      isValidObjectId cid = true →
      s.classes.find? (fun x => x._id == cid) = none →
        service_create_booking cid nm em s =
          (.error (.classNotFoundError cid), s)) ∧
    (∀ (s : DbState) (cid nm em : String) (d : ClassDoc),
      isValidObjectId cid = true →
      s.classes.find? (fun x => x._id == cid) = some d → d.wf →
      d.available_slots ≤ 0 →
        service_create_booking cid nm em s =
          (.error (.validationError "No available slots for this class"), s)) ∧
    (∀ (s : DbState) (cid nm em : String) (d : ClassDoc) (b : BookingDoc),
      isValidObjectId cid = true →
      s.classes.find? (fun x => x._id == cid) = some d → d.wf →
      0 < d.available_slots →
      py_strip nm ≠ "" → py_strip em ≠ "" →
      b ∈ s.bookings → b.class_id = BVal.str cid →
      b.client_email = py_strip em → b.status = "confirmed" →
        service_create_booking cid nm em s =
          (.error (.duplicateBookingError cid em), s)) := by
  refine ⟨?_, ?_, ?_, ?_⟩
  · intro s cid nm em h
    unfold service_create_booking
    rw [if_pos (by simp [h])]
  · intro s cid nm em h hfind
    have hg : get_class_by_id cid s = .ok none := by
      unfold get_class_by_id
      rw [if_neg (by simp [h]), hfind]
    unfold service_create_booking
    rw [if_neg (by simp [h]), hg]
  · intro s cid nm em d h hfind hdwf hle
    have hg : get_class_by_id cid s = .ok (some d.entity_of) := by
      unfold get_class_by_id
      rw [if_neg (by simp [h]), hfind]
      dsimp only
      rw [classDoc_to_entity_ok d hdwf]
    unfold service_create_booking
    rw [if_neg (by simp [h]), hg]
    dsimp only
    rw [if_pos (show d.entity_of.available_slots ≤ 0 from hle)]
  · intro s cid nm em d b h hfind hdwf hpos hnm hem hb hbc hbe hbs
    have hg : get_class_by_id cid s = .ok (some d.entity_of) := by
      unfold get_class_by_id
      rw [if_neg (by simp [h]), hfind]
      dsimp only
      rw [classDoc_to_entity_ok d hdwf]
    unfold service_create_booking
    rw [if_neg (by simp [h]), hg]
    dsimp only
    rw [if_neg (show ¬ d.entity_of.available_slots ≤ 0 from not_le.mpr hpos)]
    by_cases hdup : check_duplicate_booking cid em s = true
    · rw [if_pos hdup]
    · rw [if_neg (by simp [hdup])]
      rw [Booking.post_init_ok _ (Or.inl rfl) hnm hem]
      dsimp only
      have hany : (s.bookings.any (fun x =>
          x.class_id == BVal.str cid && x.client_email == py_strip em)) =
            true :=
        List.any_eq_true.mpr ⟨b, hb, by simp [hbc, hbe]⟩
      have hrc : repo_create_booking
          { id := none
            class_id := cid
            client_name := nm
            client_email := em
            booking_time := some s.now
            class_name := some d.entity_of.name
            class_datetime_ist := some d.entity_of.datetime_ist
            instructor := some d.entity_of.instructor
            created_at := none
            status := "confirmed" } s =
          (.error (.duplicateBookingError cid em), s) := by
        unfold repo_create_booking
        rw [if_neg (by simp [h])]
        dsimp only
        rw [if_pos hany]
      rw [hrc]

/-- Witness for C2: each of the four error cases at a concrete input on a
concrete state. -/
theorem C2_create_booking_error_order_witness :
    service_create_booking "zz" "Jane" "jane@x.com" w_st =
      (.error (.validationError "Invalid class ID format"), w_st) ∧
    service_create_booking "cccccccccccccccccccccccc" "Jane" "jane@x.com"
        w_st = (.error (.classNotFoundError "cccccccccccccccccccccccc"),
          w_st) ∧
    service_create_booking "eeeeeeeeeeeeeeeeeeeeeeee" "Jane" "jane@x.com"
        w_st =
      (.error (.validationError "No available slots for this class"), w_st) ∧
    service_create_booking "aaaaaaaaaaaaaaaaaaaaaaaa" "Jane" "jane@x.com"
        w_st =
      (.error (.duplicateBookingError "aaaaaaaaaaaaaaaaaaaaaaaa"
        "jane@x.com"), w_st) :=
  ⟨C2_create_booking_error_order.1 w_st "zz" "Jane" "jane@x.com" (by decide),
    C2_create_booking_error_order.2.1 w_st "cccccccccccccccccccccccc" "Jane"
      "jane@x.com" (by decide) (by decide),
    C2_create_booking_error_order.2.2.1 w_st "eeeeeeeeeeeeeeeeeeeeeeee"
      "Jane" "jane@x.com" w_class0 (by decide) (by decide) (by decide)
      (by decide),
    C2_create_booking_error_order.2.2.2 w_st "aaaaaaaaaaaaaaaaaaaaaaaa"
      "Jane" "jane@x.com" w_class w_booking1 (by decide) (by decide)
      (by decide) (by decide) (by decide) (by decide) (by decide) (by decide)
      (by decide) (by decide)⟩

/-- C5: `cancel_booking` raises `BookingNotFoundError` exactly when no
booking with the given id exists; on an existing booking whose status is not
`confirmed` it returns false with the whole state unchanged (in particular
no `available_slots` is incremented a second time); on an existing confirmed
booking it returns true rather than raising. -/
theorem C5_cancel_booking_contract (s : DbState) (booking_id : String)
    (hwf : s.wf) :
    ((∀ b ∈ s.bookings, b._id ≠ booking_id) →
      service_cancel_booking booking_id s =
        (.error (.bookingNotFoundError booking_id), s)) ∧
    (∀ b ∈ s.bookings, b._id = booking_id → b.status ≠ "confirmed" →
      service_cancel_booking booking_id s = (.ok false, s)) ∧
    (∀ b ∈ s.bookings, b._id = booking_id → b.status = "confirmed" →
      (service_cancel_booking booking_id s).1 = .ok true) := by
  obtain ⟨hbwf, hnodup, hcwf, hcnodup⟩ := hwf
  refine ⟨?_, ?_, ?_⟩
  · intro habs
    have h1 : repo_get_booking_by_id booking_id s = .ok none := by
      unfold repo_get_booking_by_id
      by_cases hv : isValidObjectId booking_id = true
      · rw [if_neg (by simp [hv]),
          List.find?_eq_none.mpr (fun x hx => by simpa using habs x hx)]
      · rw [if_pos (by simp [hv])]
    unfold service_cancel_booking
    rw [h1]
  · intro b hb heq hne
    subst heq
    have hbw := hbwf b hb
    have hid : isValidObjectId b._id = true := hbw.1
    have h1 : repo_get_booking_by_id b._id s = .ok (some (b.entity_of s)) := by
      unfold repo_get_booking_by_id
      rw [if_neg (by simp [hid]),
        find?_key_eq (fun x => x._id) s.bookings hnodup b hb]
      dsimp only
      rw [bookingDoc_to_entity_ok b s hbw]
    have hanyf : (s.bookings.any
        (fun x => x._id == b._id && x.status == "confirmed")) = false := by
      rw [List.any_eq_false]
      intro x hx hcontra
      rw [Bool.and_eq_true, beq_iff_eq, beq_iff_eq] at hcontra
      have hxb : x = b := List.inj_on_of_nodup_map hnodup hx hb hcontra.1
      exact hne (hxb ▸ hcontra.2)
    have h2 : repo_cancel_booking b._id s = (.ok false, s) := by
      unfold repo_cancel_booking
      rw [if_neg (by simp [hid]), if_neg (by simp [hanyf])]
    unfold service_cancel_booking
    rw [h1]
    dsimp only
    rw [h2]
    rfl
  · intro b hb heq hst
    subst heq
    have hbw := hbwf b hb
    have hid : isValidObjectId b._id = true := hbw.1
    have h1 : repo_get_booking_by_id b._id s = .ok (some (b.entity_of s)) := by
      unfold repo_get_booking_by_id
      rw [if_neg (by simp [hid]),
        find?_key_eq (fun x => x._id) s.bookings hnodup b hb]
      dsimp only
      rw [bookingDoc_to_entity_ok b s hbw]
    have hany : (s.bookings.any
        (fun x => x._id == b._id && x.status == "confirmed")) = true :=
      List.any_eq_true.mpr ⟨b, hb, by simp [hst]⟩
    have h2 : repo_cancel_booking b._id s =
        (.ok true,
          { s with bookings :=
              (updateFirst (fun x => x._id == b._id && x.status == "confirmed")
                (fun x => { x with status := "cancelled" }) s.bookings) }) := by
      unfold repo_cancel_booking
      rw [if_neg (by simp [hid]), if_pos hany]
    unfold service_cancel_booking
    rw [h1]
    dsimp only
    rw [h2]
    dsimp only
    generalize hS : ({ s with bookings :=
        (updateFirst (fun x => x._id == b._id && x.status == "confirmed")
          (fun x => { x with status := "cancelled" }) s.bookings) } :
        DbState) = S
    have hSc : S.classes = s.classes := by rw [← hS]
    rcases get_class_by_id_cases ((b.entity_of s).class_id) S
        (fun d hd => hcwf d (hSc ▸ hd)) with hgc | ⟨d, hfind, hv, hgc⟩
    · rw [hgc]
      rfl
    · rw [hgc]
      dsimp only
      have hpd := List.find?_some hfind
      have hany2 : (S.classes.any
          (fun x => x._id == (b.entity_of s).class_id)) = true :=
        List.any_eq_true.mpr
          ⟨d, List.mem_of_find?_eq_some hfind, hpd⟩
      have hup : update_class_slots ((b.entity_of s).class_id)
          (d.entity_of.available_slots + 1) S =
          (.ok true,
            { S with classes :=
                (updateFirst (fun x => x._id == (b.entity_of s).class_id)
                  (fun x => { x with
                    available_slots := d.entity_of.available_slots + 1,
                    updated_at := some S.now }) S.classes) }) := by
        unfold update_class_slots
        rw [if_neg (by simp [hv]), if_pos hany2]
      rw [hup]
      rfl

/-- Witness for C5: on a concrete state, a nonexistent id raises, an
already-cancelled booking returns false without touching the state, a
confirmed booking returns true. -/
theorem C5_cancel_booking_contract_witness :
    service_cancel_booking "cccccccccccccccccccccccc" w_st =
      (.error (.bookingNotFoundError "cccccccccccccccccccccccc"), w_st) ∧
    service_cancel_booking "bbbbbbbbbbbbbbbbbbbbbbb2" w_st =
      (.ok false, w_st) ∧
    (service_cancel_booking "bbbbbbbbbbbbbbbbbbbbbbb1" w_st).1 = .ok true :=
  ⟨(C5_cancel_booking_contract w_st "cccccccccccccccccccccccc"
      (by decide)).1 (by decide),
    (C5_cancel_booking_contract w_st "bbbbbbbbbbbbbbbbbbbbbbb2"
      (by decide)).2.1 w_booking2 (by decide) (by decide) (by decide),
    (C5_cancel_booking_contract w_st "bbbbbbbbbbbbbbbbbbbbbbb1"
      (by decide)).2.2 w_booking1 (by decide) (by decide) (by decide)⟩

/-- `Booking.__post_init__` returns the instance it was given when it
succeeds. -/
theorem Booking.post_init_ok_eq (x y : Booking)
    (h : Booking.post_init x = .ok y) : y = x := by
  unfold Booking.post_init at h
  split_ifs at h <;> simp_all

/-- The ledger insert never touches the classes collection. -/
theorem repo_create_booking_classes (bk : Booking) (s : DbState) :
    ((repo_create_booking bk s).2).classes = s.classes := by
  unfold repo_create_booking
  split
  · rfl
  · dsimp only
    split <;> rfl

/-- The ledger status update never touches the classes collection. -/
theorem repo_cancel_booking_classes (bid : String) (s : DbState) :
    ((repo_cancel_booking bid s).2).classes = s.classes := by
  unfold repo_cancel_booking
  split
  · rfl
  · split <;> rfl

/-- `update_class_slots` relates the classes collection before and after by
the frame relation keyed on the requested class id: it never writes
`total_slots` (or any core field) and touches at most the one matching
document. -/
theorem update_class_slots_frame (cid : String) (v : Int) (s : DbState) :
    List.Forall₂ (frame_rel cid) s.classes
      ((update_class_slots cid v s).2).classes := by
  unfold update_class_slots
  split
  · exact frame_rel_refl cid s.classes
  · split
    · dsimp only
      apply updateFirst_frame
      intro d
      rfl
    · exact frame_rel_refl cid s.classes

/-- Equation form of `repo_create_booking_classes`. -/
theorem repo_create_booking_classes_eq {bk : Booking} {s s1 : DbState}
    {res : Except Err Booking} (h : repo_create_booking bk s = (res, s1)) :
    s1.classes = s.classes := by
  have h2 := repo_create_booking_classes bk s
  rw [h] at h2
  exact h2

/-- Equation form of `repo_cancel_booking_classes`. -/
theorem repo_cancel_booking_classes_eq {bid : String} {s s1 : DbState}
    {res : Except Err Bool} (h : repo_cancel_booking bid s = (res, s1)) :
    s1.classes = s.classes := by
  have h2 := repo_cancel_booking_classes bid s
  rw [h] at h2
  exact h2

/-- Equation form of `update_class_slots_frame`. -/
theorem update_class_slots_frame_eq {cid : String} {v : Int} {s s2 : DbState}
    {res : Except Err Bool} (h : update_class_slots cid v s = (res, s2)) :
    List.Forall₂ (frame_rel cid) s.classes s2.classes := by
  have h2 := update_class_slots_frame cid v s
  rw [h] at h2
  exact h2

/-- C9: neither `create_booking` nor `cancel_booking` ever writes
`total_slots` (or any other core class field): whatever the outcome, the
final classes collection is related pairwise to the initial one by the frame
relation — core fields (everything but `available_slots` and `updated_at`)
are equal, and any document whose `_id` differs from the single class
referenced by the operation (the requested `class_id` for create, the
cancelled booking's stored class reference for cancel) is completely
unchanged. -/
theorem C9_class_frame :
    (∀ (s : DbState) (cid nm em : String),
      List.Forall₂ (frame_rel cid) s.classes
        (service_create_booking cid nm em s).2.classes) ∧
    (∀ (s : DbState) (bid : String),
      s.bookings.find? (fun x => x._id == bid) = none →
        (service_cancel_booking bid s).2 = s) ∧
    (∀ (s : DbState) (bid : String) (b : BookingDoc),
      s.bookings.find? (fun x => x._id == bid) = some b →
        List.Forall₂ (frame_rel (b.class_id.toText)) s.classes
          (service_cancel_booking bid s).2.classes) := by
  refine ⟨?_, ?_, ?_⟩
  · intro s cid nm em
    unfold service_create_booking
    split
    · exact frame_rel_refl cid s.classes
    · split
      · exact frame_rel_refl cid s.classes
      · exact frame_rel_refl cid s.classes
      · split
        · exact frame_rel_refl cid s.classes
        · split
          · exact frame_rel_refl cid s.classes
          · split
            · exact frame_rel_refl cid s.classes
            · split
              · rename_i e s1 heq
                dsimp only
                rw [repo_create_booking_classes_eq heq]
                exact frame_rel_refl cid s.classes
              · rename_i created s1 heq
                split
                · rename_i e2 s2 heq2
                  dsimp only
                  rw [← repo_create_booking_classes_eq heq]
                  exact update_class_slots_frame_eq heq2
                · rename_i updated s2 heq2
                  split
                  · dsimp only
                    rw [← repo_create_booking_classes_eq heq]
                    exact update_class_slots_frame_eq heq2
                  · dsimp only
                    rw [← repo_create_booking_classes_eq heq]
                    exact update_class_slots_frame_eq heq2
  · intro s bid hfind
    have h1 : repo_get_booking_by_id bid s = .ok none := by
      unfold repo_get_booking_by_id
      by_cases hv : isValidObjectId bid = true
      · rw [if_neg (by simp [hv]), hfind]
      · rw [if_pos (by simp [hv])]
    unfold service_cancel_booking
    rw [h1]
  · intro s bid b hfind
    by_cases hv : isValidObjectId bid = true
    · rcases hte : b.to_entity s with e | bk
      · have h1 : repo_get_booking_by_id bid s = .error e := by
          unfold repo_get_booking_by_id
          rw [if_neg (by simp [hv]), hfind]
          dsimp only
          rw [hte]
        unfold service_cancel_booking
        rw [h1]
        exact frame_rel_refl _ s.classes
      · have h1 : repo_get_booking_by_id bid s = .ok (some bk) := by
          unfold repo_get_booking_by_id
          rw [if_neg (by simp [hv]), hfind]
          dsimp only
          rw [hte]
        have hbk : bk = b.entity_of s := Booking.post_init_ok_eq _ _ hte
        have hkey : bk.class_id = b.class_id.toText := by
          rw [hbk]
          rfl
        unfold service_cancel_booking
        rw [h1]
        dsimp only
        split
        · rename_i e s1 heq
          dsimp only
          rw [repo_cancel_booking_classes_eq heq]
          exact frame_rel_refl _ s.classes
        · rename_i success s1 heq
          split
          · split
            · rename_i e2 heq2
              dsimp only
              rw [repo_cancel_booking_classes_eq heq]
              exact frame_rel_refl _ s.classes
            · dsimp only
              rw [repo_cancel_booking_classes_eq heq]
              exact frame_rel_refl _ s.classes
            · rename_i fc heq2
              split
              · rename_i e3 s2 heq3
                dsimp only
                have hfr := update_class_slots_frame_eq heq3
                rw [hkey] at hfr
                rw [← repo_cancel_booking_classes_eq heq]
                exact hfr
              · rename_i ok3 s2 heq3
                dsimp only
                have hfr := update_class_slots_frame_eq heq3
                rw [hkey] at hfr
                rw [← repo_cancel_booking_classes_eq heq]
                exact hfr
          · dsimp only
            rw [repo_cancel_booking_classes_eq heq]
            exact frame_rel_refl _ s.classes
    · have h1 : repo_get_booking_by_id bid s = .ok none := by
        unfold repo_get_booking_by_id
        rw [if_pos (by simp [hv])]
      unfold service_cancel_booking
      rw [h1]
      exact frame_rel_refl _ s.classes

/-- Witness for C9 at concrete create and cancel invocations. -/
theorem C9_class_frame_witness :
    List.Forall₂ (frame_rel "aaaaaaaaaaaaaaaaaaaaaaaa") w_st.classes
      (service_create_booking "aaaaaaaaaaaaaaaaaaaaaaaa" "Maya" "maya@x.com"
        w_st).2.classes ∧
    (service_cancel_booking "cccccccccccccccccccccccc" w_st).2 = w_st ∧
    List.Forall₂ (frame_rel (w_booking1.class_id.toText)) w_st.classes
      (service_cancel_booking "bbbbbbbbbbbbbbbbbbbbbbb1" w_st).2.classes :=
  ⟨C9_class_frame.1 w_st "aaaaaaaaaaaaaaaaaaaaaaaa" "Maya" "maya@x.com",
    C9_class_frame.2.1 w_st "cccccccccccccccccccccccc" (by decide),
    C9_class_frame.2.2 w_st "bbbbbbbbbbbbbbbbbbbbbbb1" w_booking1
      (by decide)⟩

/-- C7: `get_booking_stats` is computed over the full booking set (cancelled
included) and returns, without ever raising a division error, the total
count, the per-status counts for confirmed/cancelled/pending, the number of
distinct client e-mails, and the two rates `confirmed/total*100` and
`cancelled/total*100`, both `0` when the total is `0`. -/
theorem C7_booking_stats (s : DbState) (hwf : ∀ b ∈ s.bookings, b.wf) :
    service_get_booking_stats s = .ok
      { total_bookings := s.bookings.length
        confirmed_bookings :=
          s.bookings.countP (fun b => b.status == "confirmed")
        cancelled_bookings :=
          s.bookings.countP (fun b => b.status == "cancelled")
        pending_bookings :=
          s.bookings.countP (fun b => b.status == "pending")
        unique_clients :=
          (s.bookings.map (fun b => b.client_email)).dedup.length
        confirmation_rate :=
          if s.bookings.length = 0 then 0 else
            (s.bookings.countP (fun b => b.status == "confirmed") : ℚ) /
              (s.bookings.length : ℚ) * 100
        cancellation_rate :=
          if s.bookings.length = 0 then 0 else
            (s.bookings.countP (fun b => b.status == "cancelled") : ℚ) /
              (s.bookings.length : ℚ) * 100 } := by
  have hperm := sortBy_perm
    (fun a b : BookingDoc => decide (b.created_at ≤ a.created_at)) s.bookings
  have hsw : ∀ d ∈ sortBy
      (fun a b : BookingDoc => decide (b.created_at ≤ a.created_at))
      s.bookings, d.wf :=
    fun d hd => hwf d (hperm.mem_iff.mp hd)
  have hall : repo_get_all_bookings s = .ok
      ((sortBy (fun a b : BookingDoc => decide (b.created_at ≤ a.created_at))
        s.bookings).map (fun b => b.entity_of s)) := by
    unfold repo_get_all_bookings
    exact mapM_to_entity_ok s _ hsw
  have hlen : ((sortBy
      (fun a b : BookingDoc => decide (b.created_at ≤ a.created_at))
      s.bookings).map (fun b => b.entity_of s)).length = s.bookings.length := by
    rw [List.length_map]
    exact hperm.length_eq
  have hst : ∀ st : String, count_status ((sortBy
      (fun a b : BookingDoc => decide (b.created_at ≤ a.created_at))
      s.bookings).map (fun b => b.entity_of s)) st =
      s.bookings.countP (fun b => b.status == st) := by
    intro st
    rw [count_status_eq_countP, List.countP_map]
    exact hperm.countP_eq _
  have huniq : unique_client_count ((sortBy
      (fun a b : BookingDoc => decide (b.created_at ≤ a.created_at))
      s.bookings).map (fun b => b.entity_of s)) =
      (s.bookings.map (fun b => b.client_email)).dedup.length := by
    unfold unique_client_count
    rw [foldl_insert_toFinset, Finset.empty_union, List.card_toFinset,
      List.map_map]
    exact ((hperm.map _).dedup).length_eq
  unfold service_get_booking_stats
  rw [hall]
  dsimp only
  rw [hlen, hst "confirmed", hst "cancelled", hst "pending", huniq]
  by_cases h0 : s.bookings.length = 0
  · simp [h0]
  · simp [h0, Nat.pos_of_ne_zero h0]

/-- Witness for C7 on a concrete two-booking state (one confirmed, one
cancelled, two distinct clients): rates are 50 percent each. -/
theorem C7_booking_stats_witness :
    service_get_booking_stats w_st = .ok
      { total_bookings := 2
        confirmed_bookings := 1
        cancelled_bookings := 1
        pending_bookings := 0
        unique_clients := 2
        confirmation_rate := 50
        cancellation_rate := 50 } :=
  (C7_booking_stats w_st (by decide)).trans (by
    simp only [Except.ok.injEq, BookingStats.mk.injEq]
    refine ⟨by decide, by decide, by decide, by decide, by decide, ?_, ?_⟩
    · rw [show List.countP (fun b => b.status == "confirmed") w_st.bookings = 1
          from by decide,
        show w_st.bookings.length = 2 from by decide]
      norm_num
    · rw [show List.countP (fun b => b.status == "cancelled") w_st.bookings = 1
          from by decide,
        show w_st.bookings.length = 2 from by decide]
      norm_num)

end FitnessStudio
